import Mathlib

/-!
Verification of the WSL machine-provisioning subsystem of this repository:
port-mapping normalization, the WSL lifecycle stubber (CreateVM rollback,
StopVM, Remove), the elevation/reboot-resume protocol (launchElevate,
relaunchElevatedWait, reboot, obtainShutdownPrivilege) and the command-line
serialization helpers (buildCommandArgs, encodeUTF16Bytes).

External side effects (processes launched, registry writes, file writes) are
modelled by environment records that fix each external call's outcome, and by
explicit effect traces where the order of side effects matters.
-/

/-- Go `error` values as they appear in the modelled code: a plain message
(`errors.Errorf`/`errors.New`), a wrapped error (`errors.Wrap`/`fmt.Errorf`
with `%w`), or a `*wsl.ExitCodeError` carrying a process exit code. -/
inductive GoErr where
  | msg : String → GoErr
  | wrap : String → GoErr → GoErr
  | exitCode : Nat → GoErr
deriving DecidableEq

/-! ## Port-mapping data model (libpod) -/

/-- `types.OCICNIPortMapping`: a single-port host/container binding,
field-for-field (HostPort, ContainerPort, Protocol, HostIP). -/
structure OCICNIPortMapping where
  hostPort : Nat
  containerPort : Nat
  protocol : String
  hostIP : String
deriving DecidableEq

/-- `types.PortMapping`: a range-bearing mapping
(HostIP, HostPort, ContainerPort, Protocol, Range). -/
structure PortMapping where
  hostIP : String
  hostPort : Nat
  containerPort : Nat
  protocol : String
  range : Nat
deriving DecidableEq

/-! ## Range coalescing (`ocicniPortsToNetTypesPorts`) -/

/-- Accumulator pass behind `dedupKeys`: keep a key the first time it is seen. -/
def dedupKeysAux (seen : List (String × String)) :
    List (String × String) → List (String × String)
  | [] => []
  | k :: rest =>
    if k ∈ seen then dedupKeysAux seen rest
    else k :: dedupKeysAux (k :: seen) rest

/-- First-occurrence-ordered list of the distinct `(Protocol, HostIP)` keys. -/
def dedupKeys (l : List (String × String)) : List (String × String) :=
  dedupKeysAux [] l

/-- Stable insertion (by ContainerPort) of an index-tagged mapping into a
sorted list. -/
def insertByCPort (x : Nat × OCICNIPortMapping) :
    List (Nat × OCICNIPortMapping) → List (Nat × OCICNIPortMapping)
  | [] => [x]
  | y :: ys =>
    if x.2.containerPort ≤ y.2.containerPort then x :: y :: ys
    else y :: insertByCPort x ys

/-- Stable insertion sort by ContainerPort. -/
def sortByCPort : List (Nat × OCICNIPortMapping) → List (Nat × OCICNIPortMapping)
  | [] => []
  | x :: xs => insertByCPort x (sortByCPort xs)

/-- Insertion (by original input index) of an index-tagged merged mapping. -/
def insertByIdx (x : Nat × PortMapping) :
    List (Nat × PortMapping) → List (Nat × PortMapping)
  | [] => [x]
  | y :: ys => if x.1 ≤ y.1 then x :: y :: ys else y :: insertByIdx x ys

/-- Sort merged groups by the original input index of each group's first
element. -/
def sortByIdx : List (Nat × PortMapping) → List (Nat × PortMapping)
  | [] => []
  | x :: xs => insertByIdx x (sortByIdx xs)

/-- Scan a ContainerPort-sorted same-key group, merging an entry into the
current range when Protocol and HostIP match exactly and both HostPort and
ContainerPort are exactly 1 above the end of the current range. Each merged
group keeps the input index of its first element. -/
def mergeRunsGo (headIdx : Nat) (cur : PortMapping) :
    List (Nat × OCICNIPortMapping) → List (Nat × PortMapping)
  | [] => [(headIdx, cur)]
  | (j, q) :: rest =>
    if q.protocol == cur.protocol && q.hostIP == cur.hostIP
        && q.hostPort == cur.hostPort + cur.range
        && q.containerPort == cur.containerPort + cur.range then
      mergeRunsGo headIdx { cur with range := cur.range + 1 } rest
    else
      (headIdx, cur) :: mergeRunsGo j ⟨q.hostIP, q.hostPort, q.containerPort, q.protocol, 1⟩ rest

/-- Merge a ContainerPort-sorted same-key group into `Range`-bearing entries. -/
def mergeRuns : List (Nat × OCICNIPortMapping) → List (Nat × PortMapping)
  | [] => []
  | (i, p) :: rest => mergeRunsGo i ⟨p.hostIP, p.hostPort, p.containerPort, p.protocol, 1⟩ rest

/-- Modelled from the spec: the range-coalescing normalization
`ocicniPortsToNetTypesPorts` (its implementation is absent from the sources;
only `Test_ocicniPortsToNetTypesPorts` is present). Per the spec: sort
conceptually by `(Protocol, HostIP, ContainerPort)` and merge consecutive
entries into one `Range`-bearing entry when `Protocol` and `HostIP` match
exactly and both `HostPort` and `ContainerPort` increase by exactly 1;
non-adjacent or attribute-mismatched entries remain singleton ranges; output
order is insertion order of the first element of each merged group; empty
input yields empty output. -/
def ocicniPortsToNetTypesPorts (ps : List OCICNIPortMapping) : List PortMapping :=
  let ips := ps.enum
  let ks := dedupKeys (ips.map (fun ip => (ip.2.protocol, ip.2.hostIP)))
  let runs := (ks.map (fun k =>
    mergeRuns (sortByCPort (ips.filter
      (fun ip => ip.2.protocol == k.1 && ip.2.hostIP == k.2))))).flatten
  (sortByIdx runs).map (fun r => r.2)

/-! ## Backend-aware splitting / filtering (`Container.convertPortMappings`) -/

/-- `machine.MachineMarker`: whether the process runs against a machine VM,
and the backend type (`"wsl"`, `"qemu"`, ...). -/
structure MachineMarker where
  enabled : Bool
  type : String

/-- Modelled from the spec: the dual-stack split applied per mapping on the
WSL (dual-stack-incapable) backend (the implementation behind
`TestMachinePortConversion` is absent from the sources). A mapping already
qualified as `tcp4`/`tcp6` never splits; an unqualified-protocol mapping bound
to a wildcard (`0.0.0.0` or `::`) splits into a `tcp4`/`0.0.0.0` entry and a
`tcp6`/`::` entry; an unqualified-protocol mapping bound to the IPv6 loopback
splits into `tcp4`/`127.0.0.1` and `tcp6`/`::1`; anything else is unchanged. -/
def splitDualStack (p : PortMapping) : List PortMapping :=
  if p.protocol == "tcp4" || p.protocol == "tcp6" then [p]
  else if p.hostIP == "0.0.0.0" || p.hostIP == "::" then
    [{ p with protocol := p.protocol ++ "4", hostIP := "0.0.0.0" },
     { p with protocol := p.protocol ++ "6", hostIP := "::" }]
  else if p.hostIP == "::1" then
    [{ p with protocol := p.protocol ++ "4", hostIP := "127.0.0.1" },
     { p with protocol := p.protocol ++ "6", hostIP := "::1" }]
  else [p]

/-- Modelled from the spec: `Container.convertPortMappings` (absent from the
sources; only `TestMachinePortConversion`/`verifySplit` are present). With no
machine marker the mappings pass through unchanged; on the WSL backend each
mapping undergoes the dual-stack split; on the remote-VM-style (QEMU) backend
the explicit `HostIP` is dropped from every mapping, with `Protocol` and the
ports untouched and no splitting. -/
def convertPortMappings (m : MachineMarker) (ps : List PortMapping) : List PortMapping :=
  if !m.enabled then ps
  else if m.type == "wsl" then (ps.map splitDualStack).flatten
  else if m.type == "qemu" then ps.map (fun p => { p with hostIP := "" })
  else ps

/-! ## Command-line serialization for elevation/resume (`buildCommandArgs`) -/

/-- `buildCommandArgs` from `pkg/machine/wsl/util_windows.go`, list form, over
`os.Args[1:]`. `escape` stands for the Go standard library's
`syscall.EscapeArg`. Every `--reexec` argument is skipped; every other
argument is appended escaped; when `elevate` is set, a bare `--reexec` marker
is appended right after the `init` argument. -/
def buildCommandArgsList (escape : String → String) (elevate : Bool) :
    List String → List String
  | [] => []
  | arg :: rest =>
    if arg == "--reexec" then buildCommandArgsList escape elevate rest
    else if elevate && arg == "init" then
      escape arg :: "--reexec" :: buildCommandArgsList escape elevate rest
    else escape arg :: buildCommandArgsList escape elevate rest

/-- `buildCommandArgs`: the space-joined serialized command line
(`strings.Join(args, " ")`). -/
def buildCommandArgs (escape : String → String) (elevate : Bool)
    (osArgs : List String) : String :=
  String.intercalate " " (buildCommandArgsList escape elevate osArgs)

/-! ## UTF-16 serialization of the persisted relaunch command
(`encodeUTF16Bytes`, pkg/machine/wsl/util_windows.go) -/

/-- UTF-16 code units of one Unicode scalar value (`unicode/utf16.Encode` per
rune): one unit below 0x10000, otherwise a surrogate pair. -/
def utf16EncodeChar (c : Char) : List Nat :=
  if c.toNat < 0x10000 then [c.toNat]
  else [0xD800 + (c.toNat - 0x10000) / 0x400, 0xDC00 + (c.toNat - 0x10000) % 0x400]

/-- `utf16.Encode([]rune(s))`: the UTF-16 code units of a string. -/
def utf16Encode (s : String) : List Nat :=
  (s.data.map utf16EncodeChar).flatten

/-- Little-endian byte serialization of a list of UTF-16 code units: for the
i-th unit, byte 2i is the low byte and byte 2i+1 the high byte. -/
def bytesOfUnits (l : List Nat) : List Nat :=
  (l.map (fun u => [u % 256, u / 256 % 256])).flatten

/-- The `for i := 0; i < len(u16); i++` loop of `encodeUTF16Bytes`
(util_windows.go): at each iteration it reads `u16[i]` (kept here as a checked
access, `none` modelling a Go index-out-of-range panic) and writes the low
byte to position `i<<1` and the high byte to position `(i<<1)+1` of the output
buffer; since the writes fill positions 2i and 2i+1 in increasing order of i,
they are modelled by emitting the two bytes. -/
def encodeUTF16Loop (u16 : List Nat) (i : Nat) (acc : List Nat) : Option (List Nat) :=
  if h : i < u16.length then
    match u16[i]? with
    | none => none
    | some u => encodeUTF16Loop u16 (i + 1) (acc ++ [u % 256, u / 256 % 256])
  else some acc
termination_by u16.length - i

/-- `encodeUTF16Bytes` (pkg/machine/wsl/util_windows.go): UTF-16-encode the
string and serialize the code units to little-endian bytes via the indexed
loop. -/
def encodeUTF16Bytes (s : String) : Option (List Nat) :=
  encodeUTF16Loop (utf16Encode s) 0 []

/-- The byte serialization as the spec words it: the little-endian UTF-16
encoding of the string, two bytes per code unit. -/
def utf16LEBytes (s : String) : List Nat :=
  bytesOfUnits (utf16Encode s)

/-! ## Elevated relaunch and the reboot-required short circuit
(`relaunchElevatedWait`, `launchElevate`) -/

/-- `WAIT_OBJECT_0`. -/
def WAIT_OBJECT_0 : Nat := 0

/-- `WAIT_FAILED`. -/
def WAIT_FAILED : Nat := 0xffffffff

/-- `ERROR_SUCCESS_REBOOT_REQUIRED` (3010). -/
def ERROR_SUCCESS_REBOOT_REQUIRED : Nat := 3010

/-- Outcomes of the external calls made by `relaunchElevatedWait`. -/
structure RelaunchEnv where
  shellExecOk : Bool          -- ShellExecuteExW returned nonzero
  shellExecErr : GoErr        -- syscall.GetLastError() for the failure case
  waitResult : Nat            -- WaitForSingleObject result
  waitErr : GoErr             -- its accompanying error value
  getExitCodeErr : Option GoErr  -- GetExitCodeProcess's own error
  childExitCode : Nat         -- exit code of the elevated child process

/-- `relaunchElevatedWait` (pkg/machine/wsl/util_windows.go): relaunch the
process elevated and wait for it. The final statement is
`var code uint32; return syscall.GetExitCodeProcess(handle, &code)`: the
child's exit code is stored into `code` and then discarded, so the function
returns only the error of `GetExitCodeProcess` itself, never a
`*ExitCodeError` built from `childExitCode`. -/
def relaunchElevatedWait (env : RelaunchEnv) : Option GoErr :=
  if !env.shellExecOk then some env.shellExecErr
  else if env.waitResult == WAIT_OBJECT_0 then env.getExitCodeErr
  else if env.waitResult == WAIT_FAILED then
    some (GoErr.wrap "Could not wait for process, failed" env.waitErr)
  else some (GoErr.msg "Could not wait for process, unknown error")

/-- What `launchElevate` returns and which of its messages it printed. -/
structure LaunchResult where
  ret : Option GoErr
  printedRebootNotice : Bool   -- the "Reboot is required to continue installation" notice
  dumpedOutputFile : Bool      -- the elevated-output dump on failure
deriving DecidableEq

/-- `launchElevate` (wsl machine.go), applied to the result of
`relaunchElevatedWait`: a `*ExitCodeError` with code
`ERROR_SUCCESS_REBOOT_REQUIRED` prints the reboot notice and returns nil; any
other non-nil error prints the failure text, dumps the elevated output file
and is returned unchanged; nil is returned as-is. -/
def launchElevate (waitResult : Option GoErr) : LaunchResult :=
  match waitResult with
  | none => ⟨none, false, false⟩
  | some (GoErr.exitCode c) =>
    if c == ERROR_SUCCESS_REBOOT_REQUIRED then ⟨none, true, false⟩
    else ⟨some (GoErr.exitCode c), false, true⟩
  | some e => ⟨some e, false, true⟩

/-! ## `WSLStubber.StopVM` (pkg/machine/wsl/stubber.go) -/

/-- The machine's live state and the outcomes of the external calls made by
`StopVM`. -/
structure StopWorld where
  running : Bool               -- guest distribution registered and systemd live
  probeErr : Option GoErr      -- failure of the isRunning probe, if any
  umnStopErr : Option GoErr    -- stopUserModeNetworking (printed to stderr only)
  winProxyStopErr : Option GoErr  -- machine.StopWinProxy (printed to stderr only)
  waitCmdStartErr : Option GoErr  -- starting the waitTerm shell
  exitCmdErr : Option GoErr       -- running `enterns systemctl exit 0`
  waitCmdWaitErr : Option GoErr   -- waiting for the waitTerm shell
  terminateErr : Option GoErr     -- terminateDist

/-- Modelled from the spec: the `isRunning` probe used by `WSLStubber.StopVM`
(the v5 wsl machine helper is absent from the sources). Per the spec, state is
derived by probing whether the guest distribution is registered and its init
system has a live process, never cached; a probe failure is reported as
`(false, err)`. -/
def isRunningProbe (w : StopWorld) : Bool × Option GoErr :=
  match w.probeErr with
  | some e => (false, some e)
  | none => (w.running, none)

/-- `WSLStubber.StopVM`: under the config lock, re-check the running state and
return immediately (with the probe's error, nil when healthy) if the machine
is not running; otherwise stop user-mode networking and the win proxy
(failures only printed), start the waitTerm shell, run the systemd exit
command, wait, and terminate the distribution. A failed run leaves the
modelled machine state unchanged (the real half-stopped state is external). -/
def StopVM (w : StopWorld) : Option GoErr × StopWorld :=
  match isRunningProbe w with
  | (false, e) => (e, w)
  | (true, _) =>
    match w.waitCmdStartErr with
    | some e => (some (GoErr.wrap "executing wait command" e), w)
    | none =>
      match w.exitCmdErr with
      | some e => (some (GoErr.wrap "stopping sysd" e), w)
      | none =>
        match w.waitCmdWaitErr with
        | some e => (some e, w)
        | none =>
          match w.terminateErr with
          | some e => (some e, w)
          | none => (none, { w with running := false })

/-! ## `MachineVM.Remove` (wsl machine.go) -/

/-- `MachineVM` (wsl machine.go), the fields used by `Remove`. -/
structure MachineVM where
  identityPath : String
  imageStream : String
  imagePath : String
  name : String
  port : Nat
  remoteUsername : String

/-- `machine.RemoveOptions`. -/
structure RemoveOptions where
  saveKeys : Bool
  saveImage : Bool

/-- External probes and directory lookups used by `Remove`/`isRunning`. -/
structure VMWorld where
  wslRunning : Except GoErr Bool    -- isWSLRunning: `wsl -l --running` contains the dist
  sysdRunning : Except GoErr Bool   -- isSystemdRunning: guest systemd pid probe
  confDir : Except GoErr String     -- machine.GetConfDir(vmtype)
  dataDir : Except GoErr String     -- machine.GetDataDir(vmtype)

/-- `MachineVM.isRunning`: false on a probe error; otherwise the distribution
must be running and its nested systemd alive. -/
def isRunningVM (w : VMWorld) : Bool :=
  match w.wslRunning with
  | .error _ => false
  | .ok wsl =>
    if wsl then
      match w.sysdRunning with
      | .error _ => false
      | .ok sysd => sysd
    else false

/-- `filepath.Join` on Windows. -/
def pathJoin (a b : String) : String := a ++ "\\" ++ b

/-- Result of `MachineVM.Remove`: an error (with no destroy function), or the
confirmation text plus the files the deferred destroy function would delete.
File deletions happen only when the caller invokes that function after
explicit confirmation, so a `Remove` call itself never deletes a file. -/
inductive RemoveOutcome where
  | err (e : GoErr)
  | ok (confirmation : String) (destroyFiles : List String)
deriving DecidableEq

/-- `MachineVM.Remove` (wsl machine.go): refuse while the machine is running;
otherwise collect the identity keys (unless SaveKeys), the image (unless
SaveImage), the per-machine JSON config and the wsldist directory, and return
the confirmation message together with the deferred destroy action's files. -/
def Remove (v : MachineVM) (opts : RemoveOptions) (w : VMWorld) : RemoveOutcome :=
  if isRunningVM w then
    RemoveOutcome.err (GoErr.msg ("running vm \"" ++ v.name ++ "\" cannot be destroyed"))
  else
    let files := (if opts.saveKeys then [] else [v.identityPath, v.identityPath ++ ".pub"])
      ++ (if opts.saveImage then [] else [v.imagePath])
    match w.confDir with
    | .error e => RemoveOutcome.err e
    | .ok cd =>
      let files := files ++ [pathJoin cd (v.name ++ ".json")]
      match w.dataDir with
      | .error e => RemoveOutcome.err e
      | .ok dd =>
        let files := files ++ [pathJoin (pathJoin dd "wsldist") v.name]
        RemoveOutcome.ok
          ("\nThe following files will be deleted:\n\n"
            ++ String.join (files.map (fun f => f ++ "\n")) ++ "\n")
          files

/-- The files the returned destroy action would delete; an error outcome
carries no destroy action, hence no deletable files. -/
def destroyFilesOf : RemoveOutcome → List String
  | RemoveOutcome.err _ => []
  | RemoveOutcome.ok _ fs => fs

/-! ## The reboot protocol (`reboot`, `obtainShutdownPrivilege`,
pkg/machine/wsl/util_windows.go) -/

/-- `EWX_FORCEIFHUNG`. -/
def EWX_FORCEIFHUNG : Nat := 0x10

/-- `EWX_REBOOT`. -/
def EWX_REBOOT : Nat := 0x02

/-- `EWX_RESTARTAPPS`. -/
def EWX_RESTARTAPPS : Nat := 0x40

/-- Externally visible calls made by `reboot`, in call order. The
`exitWindowsEx` effect records the flag word passed to `ExitWindowsEx`. -/
inductive RebootEff where
  | mkdirData
  | writeCommFile     -- persisting the serialized re-launch command
  | setRunOnce        -- registering the one-shot RunOnce resume hook
  | acquirePrivilege  -- obtainShutdownPrivilege
  | showMessageBox
  | exitWindowsEx (flags : Nat)
deriving DecidableEq

/-- Outcomes of the external calls made by `reboot` and
`obtainShutdownPrivilege`. The construction of the serialized command string
(wt.exe detection, 260-character fallback) only selects the registered string
and does not affect the protocol's call order, so it is not modelled. -/
structure RebootEnv where
  dataHome : Except GoErr String  -- machine.GetDataHome()
  mkdirErr : Option GoErr         -- os.MkdirAll(dataDir)
  writeErr : Option GoErr         -- ioutil.WriteFile(commFile, encoded)
  runOnceErr : Option GoErr       -- addRunOnceRegistryEntry
  openTokenOk : Bool              -- OpenProcessToken returned 1
  openTokenErr : GoErr
  lookupOk : Bool                 -- LookupPrivilegeValueW returned 1
  lookupErr : GoErr
  adjustOk : Bool                 -- AdjustTokenPrivileges returned 1
  adjustErr : GoErr
  msgBoxRet : Nat                 -- MessageBox return value (1 = confirmed)
  exitRet : Nat                   -- ExitWindowsEx return value (1 = success)
  exitErr : GoErr

/-- `obtainShutdownPrivilege`: open the process token, look up
`SeShutdownPrivilege` and enable it, wrapping the failing call's error. -/
def obtainShutdownPrivilege (env : RebootEnv) : Option GoErr :=
  if !env.openTokenOk then some (GoErr.wrap "Error opening process token" env.openTokenErr)
  else if !env.lookupOk then
    some (GoErr.wrap "Error looking up shutdown privilege" env.lookupErr)
  else if !env.adjustOk then
    some (GoErr.wrap "Error enabling shutdown privilege on token" env.adjustErr)
  else none

/-- `reboot` (pkg/machine/wsl/util_windows.go): persist the serialized
re-launch command under the data directory, register the RunOnce resume hook,
acquire the shutdown privilege, confirm with the user, and only then call
`ExitWindowsEx(EWX_REBOOT|EWX_RESTARTAPPS|EWX_FORCEIFHUNG, ...)`. Returns the
error (if any) together with the trace of external calls actually made. -/
def reboot (env : RebootEnv) : Option GoErr × List RebootEff :=
  match env.dataHome with
  | .error e => (some (GoErr.wrap "Could not determine data directory" e), [])
  | .ok _ =>
    match env.mkdirErr with
    | some e => (some (GoErr.wrap "Could not create data directory" e), [RebootEff.mkdirData])
    | none =>
      match env.writeErr with
      | some e =>
        (some (GoErr.wrap "Could not serialize command state" e),
         [RebootEff.mkdirData, RebootEff.writeCommFile])
      | none =>
        match env.runOnceErr with
        | some e =>
          (some (GoErr.wrap "Could not open RunOnce registry entry" e),
           [RebootEff.mkdirData, RebootEff.writeCommFile, RebootEff.setRunOnce])
        | none =>
          match obtainShutdownPrivilege env with
          | some e =>
            (some e,
             [RebootEff.mkdirData, RebootEff.writeCommFile, RebootEff.setRunOnce,
              RebootEff.acquirePrivilege])
          | none =>
            if env.msgBoxRet != 1 then
              (some (GoErr.msg
                "Reboot declined. Reboot manually when ready to continue installation."),
               [RebootEff.mkdirData, RebootEff.writeCommFile, RebootEff.setRunOnce,
                RebootEff.acquirePrivilege, RebootEff.showMessageBox])
            else if env.exitRet != 1 then
              (some (GoErr.wrap "Reboot failed" env.exitErr),
               [RebootEff.mkdirData, RebootEff.writeCommFile, RebootEff.setRunOnce,
                RebootEff.acquirePrivilege, RebootEff.showMessageBox,
                RebootEff.exitWindowsEx (EWX_REBOOT + EWX_RESTARTAPPS + EWX_FORCEIFHUNG)])
            else
              (none,
               [RebootEff.mkdirData, RebootEff.writeCommFile, RebootEff.setRunOnce,
                RebootEff.acquirePrivilege, RebootEff.showMessageBox,
                RebootEff.exitWindowsEx (EWX_REBOOT + EWX_RESTARTAPPS + EWX_FORCEIFHUNG)])

/-! ## `WSLStubber.CreateVM` and its rollback (pkg/machine/wsl/stubber.go) -/

/-- An undo action registered on the per-run cleanup stack. `CreateVM`
registers exactly one: the `unprovisionWSL` closure, pushed right after
`provisionWSLDist` succeeds. -/
inductive UndoTag where
  | unprovisionWSL
deriving DecidableEq

/-- Modelled from the spec: `machine.CleanupCallback` (the pkg/machine cleanup
machinery is absent from the sources; only its call sites in
`WSLStubber.CreateVM` are present). When the tracked error variable is
non-nil, the registered undo actions run in strict reverse-of-registration
order, best-effort (an individual undo failure is logged and the remaining
undos still run); when it is nil, none run. -/
def cleanupRun (stack : List UndoTag) (errVar : Option GoErr) : List UndoTag :=
  if errVar.isSome then stack.reverse else []

/-- The fallible operations of `WSLStubber.CreateVM`, in program order. -/
inductive WSLStep where
  | checkAndInstallWSL
  | verifyUserModeCompat
  | provisionDist
  | installUserModeDist
  | configureSystem
  | installScripts
  | createKeys
  | terminateDist
deriving DecidableEq

/-- Outcome of each fallible operation of one `CreateVM` run.
`checkAndInstall` is the `(cont, err)` pair of `checkAndInstallWSL`. -/
structure CreateVMEnv where
  checkAndInstall : Bool × Option GoErr
  verifyUserMode : Option GoErr
  provisionDist : Option GoErr
  installUserModeDist : Option GoErr
  configureSystem : Option GoErr
  installScripts : Option GoErr
  createKeys : Option GoErr
  terminateDist : Option GoErr

/-- The `CreateVMOpts` fields `CreateVM` reads. -/
structure CreateVMOpts where
  reExec : Bool
  userModeNetworking : Bool

/-- What one `CreateVM` run produced: the returned error, the undo actions
registered on the cleanup stack (in registration order), the undo actions the
deferred `CleanIfErr` actually executed (in execution order), and whether the
inline `unregisterDist` of the `installUserModeDist` failure path ran. -/
structure CreateVMResult where
  ret : Option GoErr
  registered : List UndoTag
  executed : List UndoTag
  inlineUnregister : Bool
deriving DecidableEq

/-- A step failed after the error variable watched by the deferred
`CleanIfErr(&err)` was assigned: the registered undos run (in reverse). -/
def finishErr (stack : List UndoTag) (inl : Bool) (e : GoErr) : CreateVMResult :=
  { ret := some e, registered := stack, executed := cleanupRun stack (some e),
    inlineUnregister := inl }

/-- `WSLStubber.CreateVM` (pkg/machine/wsl/stubber.go). Two places bypass the
deferred `CleanIfErr(&err)`: the `if cont, err := checkAndInstallWSL(...)`
initializer shadows `err` (harmless, nothing is registered yet), and the final
`return terminateDist(dist)` returns its error without assigning `err`, so a
failure there runs no undo action even though `unprovisionWSL` is registered. -/
def CreateVM (opts : CreateVMOpts) (env : CreateVMEnv) : CreateVMResult :=
  match env.checkAndInstall with
  | (false, e) => { ret := e, registered := [], executed := [], inlineUnregister := false }
  | (true, _) =>
    match (if opts.userModeNetworking then env.verifyUserMode else none) with
    | some e => finishErr [] false e
    | none =>
      match env.provisionDist with
      | some e => finishErr [] false e
      | none =>
        -- callbackFuncs.Add(unprovisionCallbackFunc)
        match (if opts.userModeNetworking then env.installUserModeDist else none) with
        | some e => finishErr [UndoTag.unprovisionWSL] true e
        | none =>
          match env.configureSystem with
          | some e => finishErr [UndoTag.unprovisionWSL] false e
          | none =>
            match env.installScripts with
            | some e => finishErr [UndoTag.unprovisionWSL] false e
            | none =>
              match env.createKeys with
              | some e => finishErr [UndoTag.unprovisionWSL] false e
              | none =>
                -- return terminateDist(dist): err is not assigned, CleanIfErr sees nil
                { ret := env.terminateDist, registered := [UndoTag.unprovisionWSL],
                  executed := cleanupRun [UndoTag.unprovisionWSL] none,
                  inlineUnregister := false }

/-- The first failing operation of a `CreateVM` run, with its error; `none`
for a fully successful run and for the non-error early exit of
`checkAndInstallWSL` returning `(false, nil)`. -/
def firstFailure (opts : CreateVMOpts) (env : CreateVMEnv) : Option (WSLStep × GoErr) :=
  match env.checkAndInstall with
  | (false, some e) => some (WSLStep.checkAndInstallWSL, e)
  | (false, none) => none
  | (true, _) =>
    match (if opts.userModeNetworking then env.verifyUserMode else none) with
    | some e => some (WSLStep.verifyUserModeCompat, e)
    | none =>
      match env.provisionDist with
      | some e => some (WSLStep.provisionDist, e)
      | none =>
        match (if opts.userModeNetworking then env.installUserModeDist else none) with
        | some e => some (WSLStep.installUserModeDist, e)
        | none =>
          match env.configureSystem with
          | some e => some (WSLStep.configureSystem, e)
          | none =>
            match env.installScripts with
            | some e => some (WSLStep.installScripts, e)
            | none =>
              match env.createKeys with
              | some e => some (WSLStep.createKeys, e)
              | none =>
                match env.terminateDist with
                | some e => some (WSLStep.terminateDist, e)
                | none => none

/-- The undo actions registered on the cleanup stack by the time the given
operation runs: only `unprovisionWSL`, pushed after `provisionDist`. -/
def undosRegisteredBefore : WSLStep → List UndoTag
  | WSLStep.checkAndInstallWSL => []
  | WSLStep.verifyUserModeCompat => []
  | WSLStep.provisionDist => []
  | _ => [UndoTag.unprovisionWSL]

/-! # Theorems -/

/-! ### Theorems: port mapping normalization -/

/-- Claim C4: for the input `[(8081,81),(8080,80),(8082,82)]`, all `tcp` with
empty HostIP, the range-coalescing normalization returns exactly the single
entry `{HostPort 8080, ContainerPort 80, Protocol tcp, Range 3}`; and entries
whose `HostIP` differs do not merge even when both ports are adjacent. -/
theorem ocicni_coalesce_three_ports_joined :
    ocicniPortsToNetTypesPorts
      [⟨8081, 81, "tcp", ""⟩, ⟨8080, 80, "tcp", ""⟩, ⟨8082, 82, "tcp", ""⟩]
      = [⟨"", 8080, 80, "tcp", 3⟩]
    ∧ ocicniPortsToNetTypesPorts
      [⟨8080, 80, "tcp", "192.168.1.1"⟩, ⟨8081, 81, "tcp", "192.168.1.2"⟩]
      = [⟨"192.168.1.1", 8080, 80, "tcp", 1⟩, ⟨"192.168.1.2", 8081, 81, "tcp", 1⟩] := by
  constructor <;> rfl

/-- Claim C5: on the WSL (dual-stack-incapable) backend, a single mapping with
unqualified protocol `tcp` bound to a wildcard (`0.0.0.0` or `::`) yields
exactly the two mappings `tcp4`/`0.0.0.0` and `tcp6`/`::` (ports and range
untouched); an unqualified `tcp` mapping bound to the IPv6 loopback yields
`tcp4`/`127.0.0.1` and `tcp6`/`::1`; a mapping already qualified as `tcp4` or
`tcp6` never splits. -/
theorem convertPortMappings_wsl_split (p : PortMapping) :
    (p.protocol = "tcp" → (p.hostIP = "0.0.0.0" ∨ p.hostIP = "::") →
      convertPortMappings ⟨true, "wsl"⟩ [p]
        = [⟨"0.0.0.0", p.hostPort, p.containerPort, "tcp4", p.range⟩,
           ⟨"::", p.hostPort, p.containerPort, "tcp6", p.range⟩])
    ∧ (p.protocol = "tcp" → p.hostIP = "::1" →
      convertPortMappings ⟨true, "wsl"⟩ [p]
        = [⟨"127.0.0.1", p.hostPort, p.containerPort, "tcp4", p.range⟩,
           ⟨"::1", p.hostPort, p.containerPort, "tcp6", p.range⟩])
    ∧ ((p.protocol = "tcp4" ∨ p.protocol = "tcp6") →
      convertPortMappings ⟨true, "wsl"⟩ [p] = [p]) := by
  obtain ⟨ip, hp, cp, proto, r⟩ := p
  refine ⟨?_, ?_, ?_⟩
  · rintro rfl (rfl | rfl) <;> rfl
  · rintro rfl rfl
    rfl
  · rintro (rfl | rfl) <;> rfl

/-- Claim C6: on the remote-VM-style (QEMU) backend, the conversion maps each
input mapping to one output mapping (no splitting) whose `HostIP` is empty and
whose protocol, host port, container port and range are untouched. -/
theorem convertPortMappings_qemu_filters_hostIP (ps : List PortMapping) :
    List.Forall₂
      (fun q p => q.hostIP = "" ∧ q.protocol = p.protocol ∧ q.hostPort = p.hostPort
        ∧ q.containerPort = p.containerPort ∧ q.range = p.range)
      (convertPortMappings ⟨true, "qemu"⟩ ps) ps := by
  induction ps with
  | nil => exact List.Forall₂.nil
  | cons p t ih => exact List.Forall₂.cons ⟨rfl, rfl, rfl, rfl, rfl⟩ ih

/-- Closed instantiation of `convertPortMappings_wsl_split` at the concrete
mapping used by `TestMachinePortConversion` (protocol `tcp`, host IP `::`,
host port 100, container port 200). -/
theorem convertPortMappings_wsl_split_witness :
    convertPortMappings ⟨true, "wsl"⟩ [⟨"::", 100, 200, "tcp", 1⟩]
      = [⟨"0.0.0.0", 100, 200, "tcp4", 1⟩, ⟨"::", 100, 200, "tcp6", 1⟩]
    ∧ convertPortMappings ⟨true, "wsl"⟩ [⟨"::", 100, 200, "tcp6", 1⟩]
      = [⟨"::", 100, 200, "tcp6", 1⟩] := by
  constructor
  · exact (convertPortMappings_wsl_split ⟨"::", 100, 200, "tcp", 1⟩).1 rfl (Or.inr rfl)
  · exact (convertPortMappings_wsl_split ⟨"::", 100, 200, "tcp6", 1⟩).2.2 (Or.inr rfl)

/-! ### Theorems: command-line serialization (buildCommandArgs) -/

/-- Helper: on an argument list without `init`, `buildCommandArgs(true)` keeps
exactly the non-`--reexec` arguments, each escaped once, in order. -/
theorem buildCommandArgsList_no_init (escape : String → String) :
    ∀ l : List String, "init" ∉ l →
      buildCommandArgsList escape true l
        = (l.filter (fun a => !(a == "--reexec"))).map escape := by
  intro l h
  induction l with
  | nil => rfl
  | cons a t ih =>
    have hne : "init" ≠ a := List.ne_of_not_mem_cons h
    have ht : "init" ∉ t := List.not_mem_of_not_mem_cons h
    by_cases hr : a = "--reexec"
    · subst hr
      simp [buildCommandArgsList, ih ht]
    · have h1 : (a == "--reexec") = false := beq_eq_false_iff_ne.mpr hr
      have h2 : (a == "init") = false := beq_eq_false_iff_ne.mpr (fun hh => hne hh.symm)
      simp [buildCommandArgsList, h1, h2, ih ht]

/-- Helper: full characterization of `buildCommandArgs(true)` on a list whose
only `init` sits between `pre` and `post`. -/
theorem buildCommandArgsList_insert (escape : String → String) :
    ∀ pre post : List String, "init" ∉ pre → "init" ∉ post →
      buildCommandArgsList escape true (pre ++ "init" :: post)
        = (pre.filter (fun a => !(a == "--reexec"))).map escape
          ++ escape "init" :: "--reexec"
            :: (post.filter (fun a => !(a == "--reexec"))).map escape := by
  intro pre post hpre hpost
  induction pre with
  | nil =>
    simp only [List.nil_append, List.filter_nil, List.map_nil]
    simp [buildCommandArgsList, buildCommandArgsList_no_init escape post hpost]
  | cons a t ih =>
    have hne : "init" ≠ a := List.ne_of_not_mem_cons hpre
    have ht : "init" ∉ t := List.not_mem_of_not_mem_cons hpre
    by_cases hr : a = "--reexec"
    · subst hr
      simp [buildCommandArgsList, ih ht]
    · have h1 : (a == "--reexec") = false := beq_eq_false_iff_ne.mpr hr
      have h2 : (a == "init") = false := beq_eq_false_iff_ne.mpr (fun hh => hne hh.symm)
      simp [buildCommandArgsList, h1, h2, ih ht]

/-- Claim C9: for every process argument list containing the `init` argument
(once) and an arbitrary escape function, `buildCommandArgs(true)` returns the
space-joined original arguments with every pre-existing `--reexec` removed,
each remaining argument escaped exactly once, in order, and a single bare
`--reexec` marker inserted immediately after the `init` argument — in
particular no argument appears both unescaped and escaped and no argument is
duplicated. -/
theorem buildCommandArgs_elevate (escape : String → String) (pre post : List String)
    (h1 : "init" ∉ pre) (h2 : "init" ∉ post) :
    buildCommandArgs escape true (pre ++ "init" :: post)
      = String.intercalate " "
          ((pre.filter (fun a => !(a == "--reexec"))).map escape
            ++ escape "init" :: "--reexec"
              :: (post.filter (fun a => !(a == "--reexec"))).map escape) := by
  unfold buildCommandArgs
  rw [buildCommandArgsList_insert escape pre post h1 h2]

/-- Closed instantiation of `buildCommandArgs_elevate`: a stale `--reexec` is
removed and a single fresh one is inserted right after `init`. -/
theorem buildCommandArgs_elevate_witness :
    buildCommandArgs id true ["machine", "init", "--reexec", "--now"]
      = "machine init --reexec --now" := by
  have h := buildCommandArgs_elevate id ["machine"] ["--reexec", "--now"]
    (by decide) (by decide)
  rw [show ["machine"] ++ "init" :: ["--reexec", "--now"]
      = ["machine", "init", "--reexec", "--now"] from rfl] at h
  rw [h]
  rfl

/-! ### Theorems: UTF-16 serialization (encodeUTF16Bytes) -/

/-- Helper: `bytesOfUnits` unfolds one unit to its two little-endian bytes. -/
theorem bytesOfUnits_cons (u : Nat) (t : List Nat) :
    bytesOfUnits (u :: t) = u % 256 :: u / 256 % 256 :: bytesOfUnits t := rfl

/-- Helper: the serialized byte list is twice as long as the unit list. -/
theorem bytesOfUnits_length : ∀ l : List Nat, (bytesOfUnits l).length = 2 * l.length := by
  intro l
  induction l with
  | nil => rfl
  | cons u t ih =>
    rw [bytesOfUnits_cons]
    simp only [List.length_cons, ih]
    omega

/-- Helper: byte 2i is the low byte and byte 2i+1 the high byte of unit i. -/
theorem bytesOfUnits_getElem :
    ∀ (l : List Nat) (i : Nat), i < l.length →
      (bytesOfUnits l)[2 * i]? = (l[i]?).map (fun u => u % 256)
      ∧ (bytesOfUnits l)[2 * i + 1]? = (l[i]?).map (fun u => u / 256 % 256) := by
  intro l
  induction l with
  | nil => intro i h; simp at h
  | cons u t ih =>
    intro i h
    cases i with
    | zero => simp [bytesOfUnits_cons]
    | succ j =>
      have hj : j < t.length := by
        simpa using Nat.lt_of_succ_lt_succ (by simpa using h)
      have hrec := ih j hj
      rw [bytesOfUnits_cons]
      constructor
      · rw [show 2 * (j + 1) = 2 * j + 1 + 1 from by omega]
        rw [List.getElem?_cons_succ, List.getElem?_cons_succ, List.getElem?_cons_succ]
        exact hrec.1
      · rw [show 2 * (j + 1) + 1 = (2 * j + 1) + 1 + 1 from by omega]
        rw [List.getElem?_cons_succ, List.getElem?_cons_succ, List.getElem?_cons_succ]
        exact hrec.2

/-- Helper: the indexed loop of `encodeUTF16Bytes` never goes out of range and
appends the little-endian bytes of the remaining units. -/
theorem encodeUTF16Loop_spec (u16 : List Nat) :
    ∀ k i acc, u16.length - i = k → i ≤ u16.length →
      encodeUTF16Loop u16 i acc = some (acc ++ bytesOfUnits (u16.drop i)) := by
  intro k
  induction k with
  | zero =>
    intro i acc hk hle
    have hi : i = u16.length := by omega
    rw [encodeUTF16Loop]
    simp [hi, bytesOfUnits]
  | succ n ih =>
    intro i acc hk hle
    have hlt : i < u16.length := by omega
    rw [encodeUTF16Loop, dif_pos hlt, List.getElem?_eq_getElem hlt]
    show encodeUTF16Loop u16 (i + 1) (acc ++ [u16[i] % 256, u16[i] / 256 % 256])
        = some (acc ++ bytesOfUnits (List.drop i u16))
    rw [ih (i + 1) (acc ++ [u16[i] % 256, u16[i] / 256 % 256]) (by omega) (by omega)]
    rw [List.drop_eq_getElem_cons hlt, bytesOfUnits_cons]
    simp

/-- Claim C10: for every input string, `encodeUTF16Bytes` terminates without
any out-of-range index (it returns `some`, never the panic marker `none`) and
its result is the little-endian UTF-16 serialization: exactly twice as many
bytes as UTF-16 code units, with byte 2i the low byte and byte 2i+1 the high
byte of the i-th unit. -/
theorem encodeUTF16Bytes_safe (s : String) :
    encodeUTF16Bytes s = some (utf16LEBytes s)
    ∧ (utf16LEBytes s).length = 2 * (utf16Encode s).length
    ∧ ∀ i, i < (utf16Encode s).length →
        (utf16LEBytes s)[2 * i]? = ((utf16Encode s)[i]?).map (fun u => u % 256)
        ∧ (utf16LEBytes s)[2 * i + 1]? = ((utf16Encode s)[i]?).map (fun u => u / 256 % 256) := by
  refine ⟨?_, bytesOfUnits_length _, fun i h => bytesOfUnits_getElem _ i h⟩
  have h := encodeUTF16Loop_spec (utf16Encode s) (utf16Encode s).length 0 []
    (by omega) (by omega)
  simpa [encodeUTF16Bytes, utf16LEBytes] using h

/-- Closed instantiation of `encodeUTF16Bytes_safe` at the string `"ab"`. -/
theorem encodeUTF16Bytes_safe_witness :
    encodeUTF16Bytes "ab" = some (utf16LEBytes "ab")
    ∧ (utf16LEBytes "ab")[2 * 1]? = ((utf16Encode "ab")[1]?).map (fun u => u % 256) := by
  exact ⟨(encodeUTF16Bytes_safe "ab").1, ((encodeUTF16Bytes_safe "ab").2.2 1 (by decide)).1⟩

/-! ### Theorems: elevation, stop, remove -/

/-- Claim C7 (divergence witness): whatever the elevated child's exit code —
including `ERROR_SUCCESS_REBOOT_REQUIRED` (3010) — a `relaunchElevatedWait`
whose Windows calls all succeed returns nil, because its final statement
discards the retrieved exit code; consequently `launchElevate` returns nil on
a 3010 child exit *without* printing the reboot-required notice (second
conjunct), while the distinguished `ExitCodeError` short-circuit the claim
describes (third conjunct) is unreachable. -/
theorem launchElevate_rebootRequired_unreachable :
    (∀ c : Nat,
      relaunchElevatedWait ⟨true, GoErr.msg "e1", WAIT_OBJECT_0, GoErr.msg "e2", none, c⟩
        = none)
    ∧ launchElevate
        (relaunchElevatedWait
          ⟨true, GoErr.msg "e1", WAIT_OBJECT_0, GoErr.msg "e2", none,
            ERROR_SUCCESS_REBOOT_REQUIRED⟩)
        = ⟨none, false, false⟩
    ∧ launchElevate (some (GoErr.exitCode ERROR_SUCCESS_REBOOT_REQUIRED))
        = ⟨none, true, false⟩ :=
  ⟨fun _ => rfl, rfl, rfl⟩

/-- Claim C2: `WSLStubber.StopVM` on a machine that is already stopped (with a
healthy probe) returns nil and changes nothing; and after any successful
`StopVM`, a second `StopVM` also succeeds. -/
theorem StopVM_idempotent (w : StopWorld) :
    (w.running = false → w.probeErr = none → StopVM w = (none, w))
    ∧ ((StopVM w).1 = none → (StopVM (StopVM w).2).1 = none) := by
  obtain ⟨run, pe, a, b, c, d, e, f⟩ := w
  constructor
  · rintro rfl rfl
    rfl
  · intro h
    cases pe <;> cases run <;> cases c <;> cases d <;> cases e <;> cases f <;>
      simp_all [StopVM, isRunningProbe]

/-- Closed instantiation of `StopVM_idempotent` on an already-stopped
machine. -/
theorem StopVM_idempotent_witness :
    StopVM ⟨false, none, none, none, none, none, none, none⟩
      = (none, ⟨false, none, none, none, none, none, none, none⟩) :=
  (StopVM_idempotent ⟨false, none, none, none, none, none, none, none⟩).1 rfl rfl

/-- Claim C3: on a machine that is running, `MachineVM.Remove` returns the
"running vm cannot be destroyed" error, and no destroy action (hence no
deletable file) is produced — file deletions can only happen via the destroy
action of a successful `Remove`, so a running machine suffers zero
deletions. -/
theorem Remove_refuses_running (v : MachineVM) (opts : RemoveOptions) (w : VMWorld)
    (h : isRunningVM w = true) :
    Remove v opts w
      = RemoveOutcome.err
          (GoErr.msg ("running vm \"" ++ v.name ++ "\" cannot be destroyed"))
    ∧ destroyFilesOf (Remove v opts w) = [] := by
  constructor
  · simp [Remove, h]
  · simp [Remove, h, destroyFilesOf]

/-- Closed instantiation of `Remove_refuses_running`: a running machine
(distribution registered, systemd alive) is refused. -/
theorem Remove_refuses_running_witness :
    Remove ⟨"id", "34", "img", "vm1", 22, "user"⟩ ⟨false, false⟩
        ⟨Except.ok true, Except.ok true, Except.ok "conf", Except.ok "data"⟩
      = RemoveOutcome.err (GoErr.msg "running vm \"vm1\" cannot be destroyed") :=
  (Remove_refuses_running ⟨"id", "34", "img", "vm1", 22, "user"⟩ ⟨false, false⟩
    ⟨Except.ok true, Except.ok true, Except.ok "conf", Except.ok "data"⟩ rfl).1

/-! ### Theorems: reboot protocol ordering -/

set_option maxHeartbeats 1000000 in
/-- Claim C8: whenever `reboot` issues the `ExitWindowsEx` call, it does so
with the `EWX_REBOOT` flag set and its call trace is exactly: create the data
directory, persist the serialized re-launch command, register the RunOnce
resume hook, acquire the shutdown privilege, show the confirmation box, and
only then the reboot call — and if persisting, registering the hook, or
acquiring the privilege fails, no reboot call is ever issued. -/
theorem reboot_effect_order (env : RebootEnv) :
    (∀ fl, RebootEff.exitWindowsEx fl ∈ (reboot env).2 →
      env.writeErr = none ∧ env.runOnceErr = none ∧ obtainShutdownPrivilege env = none
      ∧ fl = EWX_REBOOT + EWX_RESTARTAPPS + EWX_FORCEIFHUNG
      ∧ (reboot env).2
          = [RebootEff.mkdirData, RebootEff.writeCommFile, RebootEff.setRunOnce,
             RebootEff.acquirePrivilege, RebootEff.showMessageBox,
             RebootEff.exitWindowsEx fl])
    ∧ ((env.writeErr ≠ none ∨ env.runOnceErr ≠ none ∨ obtainShutdownPrivilege env ≠ none) →
      ∀ fl, RebootEff.exitWindowsEx fl ∉ (reboot env).2) := by
  obtain ⟨dh, mk, wr, ro, ot, ote, lk, lke, ad, ade, mb, ex, exe⟩ := env
  cases dh <;> cases mk <;> cases wr <;> cases ro <;> cases ot <;> cases lk <;> cases ad <;>
    by_cases hmb : mb = 1 <;> by_cases hex : ex = 1 <;>
      simp [reboot, obtainShutdownPrivilege, hmb, hex, bne_iff_ne]

/-- Closed instantiation of `reboot_effect_order` on an all-success
environment: the reboot call is last, after persist, hook registration and
privilege acquisition. -/
theorem reboot_effect_order_witness :
    (reboot ⟨Except.ok "data", none, none, none, true, GoErr.msg "x", true, GoErr.msg "x",
        true, GoErr.msg "x", 1, 1, GoErr.msg "x"⟩).2
      = [RebootEff.mkdirData, RebootEff.writeCommFile, RebootEff.setRunOnce,
         RebootEff.acquirePrivilege, RebootEff.showMessageBox,
         RebootEff.exitWindowsEx (EWX_REBOOT + EWX_RESTARTAPPS + EWX_FORCEIFHUNG)] := by
  have h := (reboot_effect_order ⟨Except.ok "data", none, none, none, true, GoErr.msg "x",
      true, GoErr.msg "x", true, GoErr.msg "x", 1, 1, GoErr.msg "x"⟩).1
    (EWX_REBOOT + EWX_RESTARTAPPS + EWX_FORCEIFHUNG) (by decide)
  exact h.2.2.2.2

/-! ### Theorems: CreateVM rollback -/

set_option maxHeartbeats 2000000 in
/-- Claim C1, amended: whenever a `CreateVM` run fails at one of the
provisioning operations before the final `terminateDist` recycle, exactly the
undo actions registered for the completed steps run (in reverse order of
registration, per the modelled cleanup stack) and `CreateVM` returns the
failing operation's error unmodified; a run with no failing operation executes
no undo action; and a failure of the final `terminateDist` returns that error
unmodified while executing no undo action (its error bypasses the variable
watched by the deferred `CleanIfErr`). -/
theorem CreateVM_rollback (opts : CreateVMOpts) (env : CreateVMEnv) :
    ((CreateVM opts env).ret = none → (CreateVM opts env).executed = [])
    ∧ (∀ k e, firstFailure opts env = some (k, e) → k ≠ WSLStep.terminateDist →
        (CreateVM opts env).ret = some e
        ∧ (CreateVM opts env).registered = undosRegisteredBefore k
        ∧ (CreateVM opts env).executed = (undosRegisteredBefore k).reverse)
    ∧ (∀ e, firstFailure opts env = some (WSLStep.terminateDist, e) →
        (CreateVM opts env).ret = some e ∧ (CreateVM opts env).executed = []) := by
  obtain ⟨re, umn⟩ := opts
  obtain ⟨⟨cont, ce⟩, vum, prov, ium, cfg, scr, keys, term⟩ := env
  cases cont <;> cases umn <;> cases ce <;> cases vum <;> cases prov <;> cases ium <;>
    cases cfg <;> cases scr <;> cases keys <;> cases term <;>
      simp [CreateVM, firstFailure, finishErr, cleanupRun, undosRegisteredBefore]

/-- Counterexample to claim C1 as stated: in a run whose every provisioning
step succeeds but whose final `terminateDist` fails, `CreateVM` returns the
failure, the `unprovisionWSL` undo action is registered for a completed step,
and yet no undo action executes. -/
theorem CreateVM_terminate_failure_no_rollback :
    (CreateVM ⟨false, false⟩
        ⟨(true, none), none, none, none, none, none, none, some (GoErr.msg "terminate")⟩).ret
      = some (GoErr.msg "terminate")
    ∧ (CreateVM ⟨false, false⟩
        ⟨(true, none), none, none, none, none, none, none, some (GoErr.msg "terminate")⟩).registered
      = [UndoTag.unprovisionWSL]
    ∧ (CreateVM ⟨false, false⟩
        ⟨(true, none), none, none, none, none, none, none, some (GoErr.msg "terminate")⟩).executed
      = [] :=
  ⟨rfl, rfl, rfl⟩

/-- Closed instantiation of `CreateVM_rollback`: a `configureSystem` failure
returns its error unmodified and executes exactly the registered
`unprovisionWSL` undo. -/
theorem CreateVM_rollback_witness :
    (CreateVM ⟨false, false⟩
        ⟨(true, none), none, none, none, some (GoErr.msg "cfg"), none, none, none⟩).ret
      = some (GoErr.msg "cfg")
    ∧ (CreateVM ⟨false, false⟩
        ⟨(true, none), none, none, none, some (GoErr.msg "cfg"), none, none, none⟩).registered
      = [UndoTag.unprovisionWSL]
    ∧ (CreateVM ⟨false, false⟩
        ⟨(true, none), none, none, none, some (GoErr.msg "cfg"), none, none, none⟩).executed
      = [UndoTag.unprovisionWSL] := by
  have h := (CreateVM_rollback ⟨false, false⟩
      ⟨(true, none), none, none, none, some (GoErr.msg "cfg"), none, none, none⟩).2.1
    WSLStep.configureSystem (GoErr.msg "cfg") rfl (by decide)
  exact ⟨h.1, h.2.1, h.2.2⟩
